import Mathlib

/-!
# Verification of the per-conversation session and queue engine of `ai_userbot.py`

This file shallowly embeds the core of the repository's single source file
`ai_userbot.py`: the daily quota counter (`reset_daily_limit`,
`estimate_tokens`, the token-recording side of `ask_openai`), the session
store (`activate_session`, `deactivate_session`, `session_active`), the
worker drain loop (`process_queue`), the inbound dispatcher (`on_message`)
and the idle reaper (`cleanup`).

Modelling conventions:
* Python dictionaries (`sessions`, `queues`, `locks`) become association
  lists over `Nat` chat ids (`getA` / `setA` / `popA`); the `defaultdict`
  read of `queues` is `getQD` which defaults to the empty list, and the
  `defaultdict` read of `locks` is `ensure_lock` which inserts the key.
* Timestamps (`time.time()`) are `Nat`; the calendar day string from
  `time.strftime` is a `String`.
* The external OpenAI call is nondeterministic: each drain iteration
  consumes an `Env` oracle recording the current day, the outcome of the
  generation call (`GenResult.ok reply` or `GenResult.err msg`, the latter
  standing for any exception raised inside `ask_openai`), and the clock
  value used for the activity update.
* Messages sent with `context.bot.send_message` / `reply_text` are modelled
  as pure `Output` values collected in order; delivery itself is
  fire-and-forget and never fails in the model.
* The sequential model collapses the concurrent interleavings: one run of
  the worker drain loop processes the backlog present at entry, in order,
  exactly as the `while queues[chat_id]` loop does when no other task
  touches the queue.
-/

/-- Settings from `ai_userbot.py` (lines 28-37). -/
def AI_TRIGGER : String := "AI CHAT"

/-- The deactivation phrase (line 29). -/
def STOP_TRIGGER : String := "STOP AI"

/-- Constant `MEMORY_LIMIT = 6` (line 32). -/
def MEMORY_LIMIT : Nat := 6

/-- Constant `SESSION_TIMEOUT = 30 * 60` seconds (line 33). -/
def SESSION_TIMEOUT : Nat := 30 * 60

/-- Constant `MAX_TOKENS_PER_DAY = 8000` (line 37). -/
def MAX_TOKENS_PER_DAY : Nat := 8000

/-- One chat turn: a `{"role": ..., "content": ...}` dictionary. -/
structure Msg where
  role : String
  content : String
deriving DecidableEq, Repr

/-- A session value: the `{"history": [...], "last_activity": ...}`
dictionary created by `activate_session` (lines 76-80). -/
structure Session where
  history : List Msg
  last_activity : Nat
deriving DecidableEq, Repr

/-- The process-wide quota state: globals `tokens_used_today` and
`last_reset_day` (lines 38-39). -/
structure Quota where
  tokens_used_today : Nat
  last_reset_day : String
deriving DecidableEq, Repr

/-- The three module-level mutable maps (lines 42-44): `sessions`,
`queues` and `locks`.  `locks` is modelled by its key set (the lock
objects themselves carry no state in the sequential model): what matters
is which keys have ever been inserted by the `defaultdict`. -/
structure BotState where
  sessions : List (Nat × Session)
  queues : List (Nat × List String)
  locks : List Nat
deriving DecidableEq, Repr

/-- Dictionary lookup `d[k]` returning `none` for a missing key. -/
def getA {α : Type} (d : List (Nat × α)) (k : Nat) : Option α :=
  (d.find? (fun p => p.1 == k)).map Prod.snd

/-- Dictionary assignment `d[k] = v` (replace in place, or append a new
binding). -/
def setA {α : Type} (d : List (Nat × α)) (k : Nat) (v : α) : List (Nat × α) :=
  match d with
  | [] => [(k, v)]
  | p :: rest => if p.1 == k then (k, v) :: rest else p :: setA rest k v

/-- Dictionary removal `d.pop(k, None)`. -/
def popA {α : Type} (d : List (Nat × α)) (k : Nat) : List (Nat × α) :=
  d.filter (fun p => p.1 != k)

/-- Read of `queues[chat_id]` through the `defaultdict(deque)`: a missing key
reads as the empty queue. -/
def getQD (d : List (Nat × List String)) (k : Nat) : List String :=
  (getA d k).getD []

/-- Access `locks[chat_id]` on the `defaultdict(asyncio.Lock)`: accessing a key
inserts it.  Only the key set is tracked. -/
def ensure_lock (locks : List Nat) (cid : Nat) : List Nat :=
  if cid ∈ locks then locks else locks ++ [cid]

/-- Function `reset_daily_limit()` (lines 47-52): zero the counter and move the day
stamp whenever the current day differs from the stored one. -/
def reset_daily_limit (q : Quota) (today : String) : Quota :=
  if today ≠ q.last_reset_day then
    { tokens_used_today := 0, last_reset_day := today }
  else q

/-- Function `estimate_tokens(text)` (lines 54-56): `max(1, len(text) // 4)`. -/
def estimate_tokens (text : String) : Nat :=
  max 1 (text.length / 4)

/-- The quota-recording side effect of `ask_openai` (lines 70-71):
`tokens_used_today += estimate_tokens(content)`.  The network call itself
is the nondeterministic part of the oracle. -/
def ask_openai_record (q : Quota) (content : String) : Quota :=
  { q with tokens_used_today := q.tokens_used_today + estimate_tokens content }

/-- The prompt list built at lines 111-113: system preamble, then the
session history, then the current user text.  (Read-only: it does not
influence the oracle's outcome in the model.) -/
def build_messages (history : List Msg) (text : String) : List Msg :=
  ⟨"system", "system prompt"⟩ :: history ++ [⟨"user", text⟩]

/-- Function `activate_session(chat_id)` (lines 76-80): unconditionally installs a
fresh session with empty history and `last_activity = now`. -/
def activate_session (st : BotState) (cid : Nat) (now : Nat) : BotState :=
  { st with sessions := setA st.sessions cid ⟨[], now⟩ }

/-- Function `deactivate_session(chat_id)` (lines 82-84): drops the session and the
pending queue; the `locks` entry is never touched. -/
def deactivate_session (st : BotState) (cid : Nat) : BotState :=
  { st with sessions := popA st.sessions cid, queues := popA st.queues cid }

/-- Function `session_active(chat_id)` (lines 86-87). -/
def session_active (st : BotState) (cid : Nat) : Bool :=
  (getA st.sessions cid).isSome

/-- Outcome of one `ask_openai` call: the stripped reply text, or the
message of the exception it raised. -/
inductive GenResult
  | ok (reply : String)
  | err (msg : String)
deriving DecidableEq, Repr

/-- Oracle for one drain iteration: the calendar day seen by
`reset_daily_limit`, the generation outcome, and the `time.time()` value
stored into `last_activity` on success. -/
structure Env where
  today : String
  gen : GenResult
  now : Nat
deriving DecidableEq, Repr

/-- Oracle used when the environment list runs short. -/
def defaultEnv : Env :=
  ⟨"", GenResult.err "", 0⟩

/-- One message delivered to the conversation: the generated reply
(line 122), the quota-exceeded notice (lines 102-105), or the failure
notice sent by the `except` handler (lines 127-130). -/
inductive Output
  | reply (chatId : Nat) (text : String)
  | quotaNotice (chatId : Nat)
  | failureNotice (chatId : Nat) (errText : String)
deriving DecidableEq, Repr

/-- Python `str.upper()`, character by character (the triggers are pure
ASCII, where `Char.toUpper` agrees with Python). -/
def pyUpper (s : String) : String :=
  String.mk (s.data.map Char.toUpper)

/-- Python `str.strip()`: drop leading and trailing whitespace. -/
def pyStrip (s : String) : String :=
  String.mk
    (((s.data.dropWhile Char.isWhitespace).reverse.dropWhile
        Char.isWhitespace).reverse)

/-- Update of `session["history"]` after a successful generation
(lines 118-120): append the user/assistant pair, then keep the last
`MEMORY_LIMIT * 2` entries (Python `[-MEMORY_LIMIT * 2:]`). -/
def append_turns (history : List Msg) (userText answer : String) : List Msg :=
  let grown := history ++ [⟨"user", userText⟩, ⟨"assistant", answer⟩]
  grown.drop (grown.length - MEMORY_LIMIT * 2)

/-- The body of one iteration of the drain loop (lines 93-130), for one
dequeued `text`.  Returns the new global state, the new quota state, and
the single message delivered for this item.
* quota branch: after `reset_daily_limit`, `tokens_used_today >=
  MAX_TOKENS_PER_DAY` sends the quota notice and `continue`s;
* `sessions[chat_id]` raising `KeyError` (absent session, e.g. after a
  concurrent deactivation) is caught by the `except` handler, which sends
  a failure notice whose text is `str(KeyError(chat_id))`, i.e. the key;
* a failing `ask_openai` is likewise caught and reported;
* on success the history is appended and trimmed, the reply delivered and
  `last_activity` set (line 124). -/
def processItem (st : BotState) (q : Quota) (cid : Nat) (text : String)
    (env : Env) : BotState × Quota × Output :=
  let q1 := reset_daily_limit q env.today
  if MAX_TOKENS_PER_DAY ≤ q1.tokens_used_today then
    (st, q1, Output.quotaNotice cid)
  else
    match getA st.sessions cid with
    | none => (st, q1, Output.failureNotice cid (toString cid))
    | some session =>
      match env.gen with
      | GenResult.err m => (st, q1, Output.failureNotice cid m)
      | GenResult.ok answer =>
        let q2 := ask_openai_record q1 answer
        let session' : Session := ⟨append_turns session.history text answer, env.now⟩
        ({ st with sessions := setA st.sessions cid session' }, q2,
          Output.reply cid answer)

/-- The drain loop of `process_queue` run over the backlog present at
entry: items are popped in FIFO order, each consuming one oracle entry,
and each producing exactly one delivered `Output`. -/
def drainItems : List String → BotState → Quota → Nat → List Env →
    BotState × Quota × List Output
  | [], st, q, _, _ => (st, q, [])
  | t :: rest, st, q, cid, envs =>
    let r := processItem st q cid t (envs.headD defaultEnv)
    let rr := drainItems rest r.1 r.2.1 cid envs.tail
    (rr.1, rr.2.1, r.2.2 :: rr.2.2)

/-- Function `process_queue(chat_id, context)` (lines 90-130): touch the `locks`
defaultdict (line 91), then drain the pending backlog to empty.  In the
sequential model the loop consumes exactly the backlog present at entry
and leaves the (empty) queue entry behind, as `popleft` does. -/
def process_queue (st : BotState) (q : Quota) (cid : Nat)
    (envs : List Env) : BotState × Quota × List Output :=
  let st1 : BotState := { st with locks := ensure_lock st.locks cid }
  let pending := getQD st1.queues cid
  let st2 : BotState := { st1 with queues := setA st1.queues cid [] }
  drainItems pending st2 q cid envs

/-- What the dispatcher did with an inbound message: nothing, the stop
acknowledgment, the start acknowledgment, or an enqueue (recording
whether `len(queues[chat_id]) == 1` fired the worker spawn). -/
inductive Event
  | noOp
  | stopAck
  | startAck
  | enqueued (spawned : Bool)
deriving DecidableEq, Repr

/-- Handler `on_message` (lines 133-163): strip the text, handle the STOP and
START triggers (case-insensitively), otherwise enqueue ordinary text for
an active session, spawning a worker when the queue length becomes 1.
Note that the ordinary-text branch does not touch `last_activity`. -/
def on_message (st : BotState) (cid : Nat) (rawText : String) (now : Nat) :
    BotState × Event :=
  let text := pyStrip rawText
  if pyUpper text = STOP_TRIGGER then
    if session_active st cid then (deactivate_session st cid, Event.stopAck)
    else (st, Event.noOp)
  else if pyUpper text = AI_TRIGGER then
    if session_active st cid then (st, Event.noOp)
    else (activate_session st cid now, Event.startAck)
  else
    if session_active st cid then
      let pending := getQD st.queues cid ++ [text]
      -- the stripped text is what gets enqueued (line 161)
      ({ st with queues := setA st.queues cid pending },
        Event.enqueued (pending.length == 1))
    else (st, Event.noOp)

/-- One pass of `cleanup` over a list of chat ids. -/
def cleanup_go (keys : List Nat) (st : BotState) (now : Nat) : BotState :=
  match keys with
  | [] => st
  | cid :: rest =>
    let st' :=
      match getA st.sessions cid with
      | some s =>
        if SESSION_TIMEOUT < now - s.last_activity then
          deactivate_session st cid
        else st
      | none => st
    cleanup_go rest st' now

/-- Job `cleanup(context)` (lines 166-170): deactivate every session idle for
longer than `SESSION_TIMEOUT`. -/
def cleanup (st : BotState) (now : Nat) : BotState :=
  cleanup_go (st.sessions.map Prod.fst) st now

lemma reset_same_day (q : Quota) (today : String) (h : today = q.last_reset_day) :
    reset_daily_limit q today = q := by
  simp [reset_daily_limit, h]

lemma getA_setA {α : Type} (d : List (Nat × α)) (k : Nat) (v : α) :
    getA (setA d k v) k = some v := by
  induction d with
  | nil => simp [setA, getA, List.find?]
  | cons p rest ih =>
    by_cases h : p.1 = k
    · simp [setA, h, getA, List.find?]
    · simp only [setA, beq_iff_eq, h, if_false]
      simpa [getA, List.find?_cons, h] using ih

lemma getA_popA {α : Type} (d : List (Nat × α)) (k : Nat) :
    getA (popA d k) k = none := by
  have hnone : List.find? (fun p => p.1 == k) (d.filter (fun p => p.1 != k)) = none := by
    rw [List.find?_eq_none]
    intro x hx
    have hmem := (List.mem_filter.mp hx).2
    simp only [bne_iff_ne, ne_eq, decide_eq_true_eq] at hmem
    simpa using hmem
  simp [getA, popA, hnone]

/-- C7: the daily reset zeroes `tokens_used_today` exactly when the stored
day stamp differs from the current day, always leaves the stamp equal to
the current day, and is idempotent within a day: a second call with the
same day changes nothing. -/
theorem C7_reset_daily_limit_once_per_day :
    ∀ (q : Quota) (today : String),
    (reset_daily_limit q today).last_reset_day = today
    ∧ (reset_daily_limit q today).tokens_used_today
        = (if today = q.last_reset_day then q.tokens_used_today else 0)
    ∧ reset_daily_limit (reset_daily_limit q today) today
        = reset_daily_limit q today := by
  intro q today
  by_cases h : today = q.last_reset_day
  · simp [reset_daily_limit, h]
  · simp [reset_daily_limit, h]

/-- C10: `estimate_tokens` is `max(1, len // 4)`, so every recorded cost is
at least one unit and `ask_openai_record` strictly increases the counter;
within one day (stamp equal to the oracle's day) a drain step never
decreases `tokens_used_today`; and a permitted call may push the counter
strictly past `MAX_TOKENS_PER_DAY`, e.g. from 7999 with an 8-character
reply. -/
theorem C10_estimate_tokens_cost :
    ∀ (text : String) (q : Quota) (st : BotState) (cid : Nat) (env : Env),
    estimate_tokens text = max 1 (text.length / 4)
    ∧ 1 ≤ estimate_tokens text
    ∧ estimate_tokens "" = 1
    ∧ q.tokens_used_today < (ask_openai_record q text).tokens_used_today
    ∧ q.tokens_used_today ≤
        (processItem st { q with last_reset_day := env.today } cid text
          env).2.1.tokens_used_today
    ∧ (Quota.mk 7999 "d").tokens_used_today < MAX_TOKENS_PER_DAY
    ∧ MAX_TOKENS_PER_DAY
        < (ask_openai_record (Quota.mk 7999 "d") "abcdefgh").tokens_used_today := by
  intro text q st cid env
  have hone : 1 ≤ estimate_tokens text := le_max_left _ _
  refine ⟨rfl, hone, by decide, ?_, ?_, by decide, by decide⟩
  · simp only [ask_openai_record]
    omega
  · have hreset :
        reset_daily_limit { q with last_reset_day := env.today } env.today
          = { q with last_reset_day := env.today } := by
      simp [reset_daily_limit]
    simp only [processItem, hreset]
    split
    · exact le_refl _
    · cases hgA : getA st.sessions cid with
      | none => simp
      | some s =>
        cases hg : env.gen with
        | err m => simp
        | ok a =>
          simp only [ask_openai_record]
          omega

/-- C5: after the append-and-trim of a successful generation the history
has at most `MEMORY_LIMIT * 2` entries (exactly `min (MEMORY_LIMIT * 2)
(old + 2)`), it is a suffix of the old history followed by the new
user/assistant pair (most-recent-last), and what is cut off is exactly
the oldest prefix. -/
theorem C5_history_capped :
    ∀ (h : List Msg) (u a : String),
    (append_turns h u a).length ≤ MEMORY_LIMIT * 2
    ∧ (append_turns h u a).length = min (MEMORY_LIMIT * 2) (h.length + 2)
    ∧ (h ++ [(⟨"user", u⟩ : Msg), ⟨"assistant", a⟩]).take
          ((h.length + 2) - MEMORY_LIMIT * 2) ++ append_turns h u a
        = h ++ [(⟨"user", u⟩ : Msg), ⟨"assistant", a⟩]
    ∧ List.IsSuffix (append_turns h u a)
        (h ++ [(⟨"user", u⟩ : Msg), ⟨"assistant", a⟩]) := by
  intro h u a
  have h2 : (h ++ [(⟨"user", u⟩ : Msg), ⟨"assistant", a⟩]).length
      = h.length + 2 := by simp
  refine ⟨?_, ?_, ?_, ?_⟩
  · simp only [append_turns, List.length_drop, h2]
    omega
  · simp only [append_turns, List.length_drop, h2]
    omega
  · have ht := List.take_append_drop ((h.length + 2) - MEMORY_LIMIT * 2)
      (h ++ [(⟨"user", u⟩ : Msg), ⟨"assistant", a⟩])
    simp only [append_turns, h2]
    exact ht
  · simp only [append_turns, h2]
    exact List.drop_suffix _ _

lemma drainItems_length (items : List String) :
    ∀ (st : BotState) (q : Quota) (cid : Nat) (envs : List Env),
    (drainItems items st q cid envs).2.2.length = items.length := by
  induction items with
  | nil => intro st q cid envs; rfl
  | cons t rest ih =>
    intro st q cid envs
    simp [drainItems, ih]

lemma tail_drop_eq (envs : List Env) (n : Nat) :
    envs.tail.drop n = envs.drop (n + 1) := by
  rw [← List.drop_one, List.drop_drop, Nat.add_comm]

lemma drainItems_cons (t : String) (rest : List String) (st : BotState)
    (q : Quota) (cid : Nat) (envs : List Env) :
    drainItems (t :: rest) st q cid envs =
      ((drainItems rest (processItem st q cid t (envs.headD defaultEnv)).1
          (processItem st q cid t (envs.headD defaultEnv)).2.1 cid envs.tail).1,
       (drainItems rest (processItem st q cid t (envs.headD defaultEnv)).1
          (processItem st q cid t (envs.headD defaultEnv)).2.1 cid envs.tail).2.1,
       (processItem st q cid t (envs.headD defaultEnv)).2.2 ::
         (drainItems rest (processItem st q cid t (envs.headD defaultEnv)).1
           (processItem st q cid t (envs.headD defaultEnv)).2.1 cid
             envs.tail).2.2) := rfl

lemma drainItems_append (xs ys : List String) :
    ∀ (st : BotState) (q : Quota) (cid : Nat) (envs : List Env),
    drainItems (xs ++ ys) st q cid envs =
      ((drainItems ys (drainItems xs st q cid envs).1
          (drainItems xs st q cid envs).2.1 cid (envs.drop xs.length)).1,
       (drainItems ys (drainItems xs st q cid envs).1
          (drainItems xs st q cid envs).2.1 cid (envs.drop xs.length)).2.1,
       (drainItems xs st q cid envs).2.2 ++
         (drainItems ys (drainItems xs st q cid envs).1
           (drainItems xs st q cid envs).2.1 cid (envs.drop xs.length)).2.2) := by
  induction xs with
  | nil => intro st q cid envs; rfl
  | cons x xs ih =>
    intro st q cid envs
    rw [List.cons_append, drainItems_cons, ih, drainItems_cons, tail_drop_eq]
    simp

/-- C1: the drain loop is FIFO and one-to-one: a run over a backlog
delivers exactly one message per dequeued text (`length` is preserved),
the run over a concatenated backlog is the run over the first part
followed by the run over the second part from the resulting state (strict
arrival order, no reordering, no duplication, no drops), and a singleton
run is exactly one `processItem` step. -/
theorem C1_drain_fifo_one_to_one :
    ∀ (xs ys : List String) (t : String) (st : BotState) (q : Quota)
      (cid : Nat) (envs : List Env),
    (drainItems xs st q cid envs).2.2.length = xs.length
    ∧ drainItems (xs ++ ys) st q cid envs =
        ((drainItems ys (drainItems xs st q cid envs).1
            (drainItems xs st q cid envs).2.1 cid (envs.drop xs.length)).1,
         (drainItems ys (drainItems xs st q cid envs).1
            (drainItems xs st q cid envs).2.1 cid (envs.drop xs.length)).2.1,
         (drainItems xs st q cid envs).2.2 ++
           (drainItems ys (drainItems xs st q cid envs).1
             (drainItems xs st q cid envs).2.1 cid (envs.drop xs.length)).2.2)
    ∧ drainItems [t] st q cid envs =
        ((processItem st q cid t (envs.headD defaultEnv)).1,
         (processItem st q cid t (envs.headD defaultEnv)).2.1,
         [(processItem st q cid t (envs.headD defaultEnv)).2.2]) := by
  intro xs ys t st q cid envs
  exact ⟨drainItems_length xs st q cid envs,
    drainItems_append xs ys st q cid envs, rfl⟩

/-- C6: while the daily quota is exhausted and the calendar day has not
rolled over, every drained item is consumed without generation: the run
delivers exactly one quota notice per item, leaves the whole state and
the quota untouched, and re-queues nothing. -/
theorem C6_quota_exhausted_skips_generation :
    ∀ (items : List String) (st : BotState) (q : Quota) (cid : Nat)
      (envs : List Env),
    MAX_TOKENS_PER_DAY ≤ q.tokens_used_today →
    (∀ e ∈ envs, e.today = q.last_reset_day) →
    items.length ≤ envs.length →
    drainItems items st q cid envs
      = (st, q, items.map fun _ => Output.quotaNotice cid) := by
  intro items
  induction items with
  | nil => intro st q cid envs h1 h2 h3; rfl
  | cons t rest ih =>
    intro st q cid envs h1 h2 h3
    cases envs with
    | nil => simp at h3
    | cons e es =>
      have he : e.today = q.last_reset_day := h2 e (List.mem_cons_self _ _)
      have hstep : processItem st q cid t e = (st, q, Output.quotaNotice cid) := by
        simp [processItem, reset_same_day q e.today he, h1]
      have h2' : ∀ x ∈ es, x.today = q.last_reset_day :=
        fun x hx => h2 x (List.mem_cons_of_mem _ hx)
      have h3' : rest.length ≤ es.length := by
        simpa using Nat.le_of_succ_le_succ (by simpa using h3)
      simp [drainItems, hstep, ih st q cid es h1 h2' h3']

/-- Witness for C6 at a concrete exhausted quota: two backlogged texts
both yield the quota notice and nothing else changes. -/
theorem C6_witness :
    drainItems ["a", "b"] (BotState.mk [] [] []) (Quota.mk 8000 "d") 1
      [⟨"d", GenResult.err "", 0⟩, ⟨"d", GenResult.err "", 0⟩]
      = (BotState.mk [] [] [], Quota.mk 8000 "d",
         [Output.quotaNotice 1, Output.quotaNotice 1]) := by
  have h := C6_quota_exhausted_skips_generation ["a", "b"]
    (BotState.mk [] [] []) (Quota.mk 8000 "d") 1
    [⟨"d", GenResult.err "", 0⟩, ⟨"d", GenResult.err "", 0⟩]
    (by decide) (by decide) (by decide)
  simpa using h

/-- C2 counterexample: a failing generation call (oracle raises "boom",
clock now 99) delivers the failure notice and leaves the session — in
particular `last_activity`, still 5 — completely untouched, so the claim
that `lastActivityTime` is still updated on failure is false. -/
theorem C2_counterexample :
    processItem (BotState.mk [(1, Session.mk [] 5)] [] []) (Quota.mk 0 "d") 1
      "hi" ⟨"d", GenResult.err "boom", 99⟩
      = (BotState.mk [(1, Session.mk [] 5)] [] [], Quota.mk 0 "d",
         Output.failureNotice 1 "boom")
    ∧ (Session.mk [] 5).last_activity ≠ 99 := by
  decide

/-- C2 amended: when the generation call raises and the session exists and
the quota is not exhausted, the worker delivers exactly one failure notice
for the item, mutates neither the history nor `last_activity` (the whole
state is unchanged; the `last_activity` update at line 124 sits after the
call inside the `try`, so a failure skips it), and records no cost; the
item is consumed once and never retried. -/
theorem C2_failure_notice_no_mutation :
    ∀ (st : BotState) (q : Quota) (cid : Nat) (text m : String) (env : Env),
    env.gen = GenResult.err m →
    getA st.sessions cid ≠ none →
    (reset_daily_limit q env.today).tokens_used_today < MAX_TOKENS_PER_DAY →
    processItem st q cid text env
      = (st, reset_daily_limit q env.today, Output.failureNotice cid m) := by
  intro st q cid text m env hgen hses hq
  cases hs : getA st.sessions cid with
  | none => exact absurd hs hses
  | some s =>
    simp [processItem, hs, hgen, Nat.not_le.mpr hq]

/-- Witness for C2 at a concrete failing call. -/
theorem C2_witness :
    processItem (BotState.mk [(2, Session.mk [] 7)] [] []) (Quota.mk 3 "d") 2
      "yo" ⟨"d", GenResult.err "bad", 50⟩
      = (BotState.mk [(2, Session.mk [] 7)] [] [], Quota.mk 3 "d",
         Output.failureNotice 2 "bad") := by
  have h := C2_failure_notice_no_mutation (BotState.mk [(2, Session.mk [] 7)] [] [])
    (Quota.mk 3 "d") 2 "yo" "bad" ⟨"d", GenResult.err "bad", 50⟩
    rfl (by decide) (by decide)
  simpa [reset_daily_limit] using h

/-- C3 counterexample: `activate_session` called on a key whose session
already exists (non-empty history, `last_activity = 5`) overwrites it with
a fresh empty session stamped 99, so raw activation is not a no-op and
does not preserve history. -/
theorem C3_counterexample :
    activate_session (BotState.mk [(1, Session.mk [⟨"user", "x"⟩] 5)] [] []) 1 99
      = BotState.mk [(1, Session.mk [] 99)] [] []
    ∧ Session.mk ([] : List Msg) 99 ≠ Session.mk [⟨"user", "x"⟩] 5 := by
  decide

/-- C3 amended: `activate_session` itself unconditionally installs a fresh
empty session (clobbering any existing one); idempotence holds one level
up, in the dispatcher: on the activation trigger `on_message` is a no-op
returning the state unchanged when a session is already active (history
and `last_activity` preserved), and creates the fresh empty session only
when none exists. -/
theorem C3_activation_idempotent_at_dispatcher :
    ∀ (st : BotState) (cid : Nat) (text : String) (now : Nat),
    pyUpper (pyStrip text) = AI_TRIGGER →
    on_message st cid text now
      = (if session_active st cid then (st, Event.noOp)
         else (activate_session st cid now, Event.startAck))
    ∧ activate_session st cid now
        = { st with sessions := setA st.sessions cid (Session.mk [] now) }
    ∧ getA (activate_session st cid now).sessions cid
        = some (Session.mk [] now) := by
  intro st cid text now h
  refine ⟨?_, rfl, getA_setA st.sessions cid (Session.mk [] now)⟩
  simp only [on_message, h]
  rw [if_neg (by decide : ¬(AI_TRIGGER = STOP_TRIGGER))]
  simp

/-- Witness for C3 at a concrete active session: the dispatcher leaves the
existing history and activity stamp alone. -/
theorem C3_witness :
    on_message (BotState.mk [(1, Session.mk [⟨"user", "x"⟩] 5)] [] []) 1
      "ai chat" 99
      = (BotState.mk [(1, Session.mk [⟨"user", "x"⟩] 5)] [] [], Event.noOp) := by
  have h := (C3_activation_idempotent_at_dispatcher
    (BotState.mk [(1, Session.mk [⟨"user", "x"⟩] 5)] [] []) 1 "ai chat" 99
    (by decide)).1
  rw [h]
  rw [if_pos (by decide)]

/-- C4 counterexample: an ordinary text "hello" arriving at time 99 for an
active session stamped 5 is enqueued (and fires the worker spawn), yet the
session still carries `last_activity = 5`: the dispatcher never touches
the activity stamp. -/
theorem C4_counterexample :
    on_message (BotState.mk [(1, Session.mk [] 5)] [] []) 1 "hello" 99
      = (BotState.mk [(1, Session.mk [] 5)] [(1, ["hello"])] [],
         Event.enqueued true)
    ∧ (Session.mk [] 5).last_activity ≠ 99 := by
  decide

/-- C4 amended: for an ordinary (non-trigger) text on an active session the
dispatcher only appends the stripped text to the key's queue (spawning
when the new length is 1); it does not touch the sessions map, so
`last_activity` does not advance on inbound messages — it advances only in
the worker after a successful reply (line 124). -/
theorem C4_dispatcher_enqueues_without_touch :
    ∀ (st : BotState) (cid : Nat) (text : String) (now : Nat),
    session_active st cid = true →
    pyUpper (pyStrip text) ≠ STOP_TRIGGER →
    pyUpper (pyStrip text) ≠ AI_TRIGGER →
    on_message st cid text now
      = ({ st with
            queues :=
              setA st.queues cid (getQD st.queues cid ++ [pyStrip text]) },
         Event.enqueued ((getQD st.queues cid ++ [pyStrip text]).length == 1))
    ∧ (on_message st cid text now).1.sessions = st.sessions := by
  intro st cid text now hact h1 h2
  have hmain : on_message st cid text now
      = ({ st with
            queues :=
              setA st.queues cid (getQD st.queues cid ++ [pyStrip text]) },
         Event.enqueued ((getQD st.queues cid ++ [pyStrip text]).length == 1)) := by
    simp [on_message, h1, h2, hact]
  exact ⟨hmain, by rw [hmain]⟩

/-- Witness for C4 at a concrete active session and ordinary text. -/
theorem C4_witness :
    on_message (BotState.mk [(3, Session.mk [] 5)] [] []) 3 "hello" 99
      = ({ (BotState.mk [(3, Session.mk [] 5)] [] []) with
            queues :=
              setA (BotState.mk [(3, Session.mk [] 5)] [] []).queues 3 (getQD (BotState.mk [(3, Session.mk [] 5)] [] []).queues 3 ++ [pyStrip "hello"]) },
         Event.enqueued
           ((getQD (BotState.mk [(3, Session.mk [] 5)] [] []).queues 3
               ++ [pyStrip "hello"]).length == 1))
    ∧ (on_message (BotState.mk [(3, Session.mk [] 5)] [] []) 3 "hello" 99).1.sessions
        = (BotState.mk [(3, Session.mk [] 5)] [] []).sessions :=
  C4_dispatcher_enqueues_without_touch (BotState.mk [(3, Session.mk [] 5)] [] [])
    3 "hello" 99 (by decide) (by decide) (by decide)

/-- C8 counterexample: with the session for key 1 absent (concurrent
deactivation) and the quota fine, processing a queued item sends a failure
notice to the conversation — the `KeyError` raised by `sessions[chat_id]`
is caught by the generic handler and reported, contradicting the claim
that the absence is never reported as a failure. -/
theorem C8_counterexample :
    processItem (BotState.mk [] [(1, ["x"])] []) (Quota.mk 0 "d") 1 "x"
      ⟨"d", GenResult.ok "r", 9⟩
      = (BotState.mk [] [(1, ["x"])] [], Quota.mk 0 "d",
         Output.failureNotice 1 "1")
    ∧ Output.failureNotice 1 "1" ≠ Output.reply 1 "r" := by
  decide

/-- C8 amended: when the session is absent during a drain step the worker
indeed never touches per-session state (the whole state is unchanged) and
the loop is not aborted (the item is consumed and draining continues), but
the absence IS reported to the conversation: the `KeyError` escapes to the
`except` handler, which sends a failure notice carrying the key.  (The
remaining backlog was already discarded by `deactivate_session`, which
pops the queue entry itself.) -/
theorem C8_absent_session_reports_failure :
    ∀ (st : BotState) (q : Quota) (cid : Nat) (text : String) (env : Env),
    getA st.sessions cid = none →
    (reset_daily_limit q env.today).tokens_used_today < MAX_TOKENS_PER_DAY →
    processItem st q cid text env
      = (st, reset_daily_limit q env.today,
         Output.failureNotice cid (toString cid)) := by
  intro st q cid text env hs hq
  simp [processItem, hs, Nat.not_le.mpr hq]

/-- Witness for C8 at a concrete deactivated key. -/
theorem C8_witness :
    processItem (BotState.mk [] [] []) (Quota.mk 0 "d") 4 "x"
      ⟨"d", GenResult.ok "r", 9⟩
      = (BotState.mk [] [] [], Quota.mk 0 "d", Output.failureNotice 4 "4") := by
  have h := C8_absent_session_reports_failure (BotState.mk [] [] [])
    (Quota.mk 0 "d") 4 "x" ⟨"d", GenResult.ok "r", 9⟩ (by decide) (by decide)
  simpa [reset_daily_limit] using h

lemma processItem_locks (st : BotState) (q : Quota) (cid : Nat)
    (text : String) (env : Env) :
    (processItem st q cid text env).1.locks = st.locks := by
  simp only [processItem]
  split
  · rfl
  · split
    · rfl
    · split <;> rfl

lemma drainItems_locks (items : List String) :
    ∀ (st : BotState) (q : Quota) (cid : Nat) (envs : List Env),
    (drainItems items st q cid envs).1.locks = st.locks := by
  induction items with
  | nil => intro st q cid envs; rfl
  | cons t rest ih =>
    intro st q cid envs
    rw [drainItems_cons]
    simp only [ih, processItem_locks]

lemma cleanup_go_locks (keys : List Nat) :
    ∀ (st : BotState) (now : Nat), (cleanup_go keys st now).locks = st.locks := by
  induction keys with
  | nil => intro st now; rfl
  | cons cid rest ih =>
    intro st now
    simp only [cleanup_go]
    split
    · split
      · rw [ih]; rfl
      · rw [ih]
    · rw [ih]

lemma on_message_locks (st : BotState) (cid : Nat) (text : String) (now : Nat) :
    (on_message st cid text now).1.locks = st.locks := by
  simp only [on_message]
  split
  · split <;> rfl
  · split
    · split <;> rfl
    · split <;> rfl

lemma ensure_lock_grows (locks : List Nat) (cid : Nat) :
    locks ⊆ ensure_lock locks cid := by
  unfold ensure_lock
  split
  · exact fun x hx => hx
  · exact List.subset_append_left _ _

/-- C9: deactivation removes the key's session and queue entries but keeps
the locks map intact, and no operation of the program shrinks the locks
map: activation, deactivation, dispatching and the reaper leave it
unchanged, while a worker run can only extend it (the `defaultdict`
insertion at line 91). -/
theorem C9_locks_only_grow :
    ∀ (st : BotState) (cid now : Nat) (text : String) (q : Quota)
      (envs : List Env),
    getA (deactivate_session st cid).sessions cid = none
    ∧ getA (deactivate_session st cid).queues cid = none
    ∧ (deactivate_session st cid).locks = st.locks
    ∧ (activate_session st cid now).locks = st.locks
    ∧ (on_message st cid text now).1.locks = st.locks
    ∧ (cleanup st now).locks = st.locks
    ∧ st.locks ⊆ (process_queue st q cid envs).1.locks := by
  intro st cid now text q envs
  refine ⟨getA_popA st.sessions cid, getA_popA st.queues cid, rfl, rfl,
    on_message_locks st cid text now, cleanup_go_locks _ st now, ?_⟩
  have h : (process_queue st q cid envs).1.locks = ensure_lock st.locks cid := by
    simp only [process_queue, drainItems_locks]
  rw [h]
  exact ensure_lock_grows st.locks cid
